import Mathlib

/-!
Shallow embedding of the plugin lifecycle / event-routing / dashboard
subsystem of the zatech-bot repository, together with theorems checking the
natural-language specification against the code.

Embedded modules:
* `core/plugins.py` — `PluginManager.discover`, `PluginManager.startup`,
  `PluginManager.shutdown` (namespace `Core`);
* `core/events.py` — `EventRouter.subscribe`, `EventRouter.dispatch`
  (namespace `Events`);
* `dashboards/base.py` — `DashboardRegistry.register_tab`,
  `DashboardRegistry._resolve_context`, `DashboardRegistry.render_index`,
  `DashboardRegistry.render_tab` (namespace `Dashboards`).
-/

namespace Core

/-- Outcome of awaiting one of a plugin's async lifecycle hooks
(`on_startup` / `on_shutdown`): either the coroutine returns normally, or it
raises an exception carrying a message. -/
inductive HookResult where
  | ok : HookResult
  | throws (msg : String) : HookResult
deriving DecidableEq, Repr

/-- The slice of `BasePlugin` (core/plugins.py, lines 36-53) relevant to the
lifecycle loops: the plugin's `key` and the behaviour of its `on_startup` and
`on_shutdown` hooks, each modelled by its observable outcome. -/
structure LifecyclePlugin where
  key : String
  on_startup : HookResult
  on_shutdown : HookResult
deriving DecidableEq, Repr

/-- `PluginManager.startup` (core/plugins.py, lines 120-124):

    async def startup(self, context):
        for plugin in self.plugins:
            logger = context.get_logger(plugin.key)
            logger.debug("Starting plugin %s", plugin.key)
            await plugin.on_startup(context)

There is no try/except around the `await`: if a hook raises, the exception
propagates out of `startup` and the loop stops.  The embedding returns the
keys of the plugins whose `on_startup` hook was invoked (in invocation
order), and the exception that escaped the loop, if any. -/
def startup : List LifecyclePlugin → List String × Option String
  | [] => ([], none)
  | p :: rest =>
    match p.on_startup with
    | .ok =>
      let r := startup rest
      (p.key :: r.1, r.2)
    | .throws msg => ([p.key], some msg)

/-- `PluginManager.shutdown` (core/plugins.py, lines 126-130): the same loop
shape as `startup`, awaiting `plugin.on_shutdown(context)` with no
try/except.  Returns the keys of plugins whose `on_shutdown` hook was
invoked, and the exception that escaped, if any. -/
def shutdown : List LifecyclePlugin → List String × Option String
  | [] => ([], none)
  | p :: rest =>
    match p.on_shutdown with
    | .ok =>
      let r := shutdown rest
      (p.key :: r.1, r.2)
    | .throws msg => ([p.key], some msg)

/-- The static identity of a plugin instance as `discover` reads it:
`key`, `name` and `enabled_by_default` (core/plugins.py, lines 36-41). -/
structure BasePlugin where
  key : String
  name : String
  enabled_by_default : Bool
deriving DecidableEq, Repr

/-- Outcome of `importlib.import_module(f"{package}.{name}.plugin")` followed
by `PluginManager._extract_plugin` on the imported module:
* `notFound` — the import raised `ModuleNotFoundError` (caught at
  core/plugins.py line 79);
* `importError` — the import raised any other exception (not caught);
* `loaded p?` — the import succeeded and `_extract_plugin` returned the
  plugin instance `p?` (`none` when the module exposes no conforming
  instance). -/
inductive ModuleLoad where
  | notFound (msg : String) : ModuleLoad
  | importError (msg : String) : ModuleLoad
  | loaded (plugin : Option BasePlugin) : ModuleLoad
deriving DecidableEq, Repr

/-- One entry yielded by `pkgutil.iter_modules` over the package path: the
module `name`, the `is_pkg` flag, and what importing its `.plugin` submodule
would produce. -/
structure Candidate where
  name : String
  is_pkg : Bool
  load : ModuleLoad
deriving DecidableEq, Repr

/-- Log severity used inside `discover`. -/
inductive LogLevel where
  | warning : LogLevel
  | info : LogLevel
deriving DecidableEq, Repr

/-- One log record emitted by `discover`. -/
structure LogEntry where
  level : LogLevel
  msg : String
deriving DecidableEq, Repr

/-- `name.startswith("_")` (core/plugins.py, line 74): whether the module
name begins with an underscore.  Stated on the character list underlying the
string, which is what the one-character test inspects. -/
def underscored (name : String) : Bool :=
  match name.data with
  | [] => false
  | ch :: _ => ch == '_'

/-- The mutable state `discover` builds up: `self.plugins` (the accepted
plugin list, in acceptance order) and the log records emitted so far. -/
structure DiscoverState where
  plugins : List BasePlugin
  logs : List LogEntry
deriving DecidableEq, Repr

/-- One iteration of the `for _, name, is_pkg in pkgutil.iter_modules(...)`
loop of `PluginManager.discover` (core/plugins.py, lines 73-97), transcribed
clause by clause.  `enabled_set` models the set built at line 66 (membership
and emptiness are all Python uses it for).  `.error` models an exception
propagating out of the loop body: only `ModuleNotFoundError` is caught, so
any other import failure escapes `discover`. -/
def processCandidate (package : String) (enabled_set : List String)
    (st : DiscoverState) (c : Candidate) : Except String DiscoverState :=
  if !c.is_pkg || underscored c.name then .ok st
  else
    let module_name := package ++ "." ++ c.name ++ ".plugin"
    match c.load with
    | .notFound msg =>
      .ok { st with
            logs := st.logs ++
              [⟨.warning, "Skipping plugin " ++ module_name ++ ": " ++ msg⟩] }
    | .importError msg => .error msg
    | .loaded none =>
      .ok { st with
            logs := st.logs ++
              [⟨.warning, "Module " ++ module_name ++
                " does not expose a plugin instance"⟩] }
    | .loaded (some plugin) =>
      if !enabled_set.isEmpty && !enabled_set.contains plugin.key then
        .ok { st with
              logs := st.logs ++
                [⟨.info, "Plugin " ++ plugin.key ++
                  " disabled via configuration"⟩] }
      else if enabled_set.isEmpty && !plugin.enabled_by_default then
        .ok { st with
              logs := st.logs ++
                [⟨.info, "Plugin " ++ plugin.key ++ " disabled by default"⟩] }
      else
        .ok { plugins := st.plugins ++ [plugin],
              logs := st.logs ++
                [⟨.info, "Loaded plugin " ++ plugin.key ++
                  " (" ++ plugin.name ++ ")"⟩] }

/-- The candidate loop of `discover`, folding `processCandidate` over the
enumerated candidates and stopping at the first escaping exception. -/
def discoverList (package : String) (enabled_set : List String) :
    DiscoverState → List Candidate → Except String DiscoverState
  | st, [] => .ok st
  | st, c :: rest =>
    match processCandidate package enabled_set st c with
    | .ok st' => discoverList package enabled_set st' rest
    | .error e => .error e

/-- `PluginManager.discover(package, enabled)` (core/plugins.py, lines
65-97) on a fresh manager.  `has_path` models the guard at lines 68-71: when
the imported package has no `__path__`, a warning is logged and discovery
returns without enumerating candidates.  `candidates` is what
`pkgutil.iter_modules` yields, in enumeration order. -/
def discover (package : String) (has_path : Bool) (enabled : List String)
    (candidates : List Candidate) : Except String DiscoverState :=
  if !has_path then
    .ok ⟨[], [⟨.warning, "Package " ++ package ++
      " has no __path__; skipping discovery"⟩]⟩
  else
    discoverList package enabled ⟨[], []⟩ candidates

end Core

namespace Events

/-- Event payloads are JSON-like dicts in the source; the embedding models
them as association lists of strings. -/
abbrev Payload := List (String × String)

/-- A handler registered with the router (core/events.py).  A real handler
is an async closure; the embedding identifies it by `id` and records, in
`calls`, the `subscribe(event_type, handler)` calls the handler itself
performs while it runs (the only router-visible effect a handler can have). -/
inductive Handler where
  | mk (id : Nat) (calls : List (String × Handler)) : Handler

/-- The identifier of a handler. -/
def Handler.id : Handler → Nat
  | .mk i _ => i

/-- The subscribe calls a handler performs during its own invocation. -/
def Handler.calls : Handler → List (String × Handler)
  | .mk _ c => c

/-- `self._subscribers` (core/events.py, line 14): a dict from event type to
the list of handlers in subscription order.  The embedding flattens it to
one list of `(event_type, handler)` pairs in global subscription order; the
per-type lists the dict stores are recovered by `subsFor`. -/
abbrev SubTable := List (String × Handler)

/-- `EventRouter.subscribe(event_type, handler)` (core/events.py, lines
17-19): appends the handler to the list for that event type.  (The
`asyncio.Lock` only serializes concurrent mutation; in the sequential
embedding it has no observable effect.) -/
def subscribe (tbl : SubTable) (event_type : String) (h : Handler) : SubTable :=
  tbl ++ [(event_type, h)]

/-- The handler list `self._subscribers.get(event_type, ())` holds for one
event type, in subscription order. -/
def subsFor (tbl : SubTable) (event_type : String) : List Handler :=
  (tbl.filter (fun p => p.1 == event_type)).map (fun p => p.2)

/-- Apply all subscribe calls in `cs` to the table, in order. -/
def subscribeAll (tbl : SubTable) (cs : List (String × Handler)) : SubTable :=
  cs.foldl (fun t c => subscribe t c.1 c.2) tbl

/-- The `for handler in listeners: await handler(event_type, payload)` loop
of `dispatch` (core/events.py, lines 23-24), run over the snapshot list.
Each handler is awaited to completion — its own subscribe calls are applied
to the table — before the next handler runs.  Returns the table after the
loop and the invocation trace `(handler id, event_type, payload)` in
invocation order. -/
def runHandlers (tbl : SubTable) (event_type : String) (payload : Payload) :
    List Handler → SubTable × List (Nat × String × Payload)
  | [] => (tbl, [])
  | h :: rest =>
    let tbl' := subscribeAll tbl h.calls
    let r := runHandlers tbl' event_type payload rest
    (r.1, (h.id, event_type, payload) :: r.2)

/-- `EventRouter.dispatch(event_type, payload)` (core/events.py, lines
21-24): takes a snapshot `listeners = list(self._subscribers.get(...))` of
the current subscriber list, then awaits each snapshot handler in order. -/
def dispatch (tbl : SubTable) (event_type : String) (payload : Payload) :
    SubTable × List (Nat × String × Payload) :=
  runHandlers tbl event_type payload (subsFor tbl event_type)

end Events

namespace Dashboards

/-- Opaque handle for the incoming `Request`. -/
abbrev Request := Nat

/-- Opaque handle for the attached `PluginContext`. -/
abbrev PluginContextHandle := Nat

/-- A template context mapping, modelling the dict a context provider
returns and the dict handed to template rendering. -/
abbrev TemplateCtx := List (String × String)

/-- What a tab's context provider returns once awaited: either a mapping, or
a non-mapping value (which `_resolve_context` rejects with a TypeError). -/
inductive ProviderResult where
  | dict (m : TemplateCtx) : ProviderResult
  | notDict : ProviderResult

/-- `AdminContextProvider` (dashboards/base.py, line 17): a function of the
request and the plugin context.  Await-ing an awaitable result is absorbed
into the function. -/
abbrev AdminContextProvider := Request → PluginContextHandle → ProviderResult

/-- `AdminTab` (dashboards/base.py, lines 20-29). -/
structure AdminTab where
  slug : String
  label : String
  template : String
  description : String := ""
  icon : Option String := none
  context_provider : Option AdminContextProvider := none
  order : Int := 100
  metadata : TemplateCtx := []

/-- `DashboardRegistry` state relevant to the claims: `self.tabs` and
`self._context` (dashboards/base.py, lines 32-40; `attach_context` sets the
context field).  The Jinja template environment and prefix-loader table only
feed `add_template_dir` and actual HTML production, outside the embedded
behaviour. -/
structure DashboardRegistry where
  tabs : List AdminTab
  context : Option PluginContextHandle

/-- Lexicographic string comparison on code-point sequences — the order
Python uses to compare the `label.lower()` components of the sort key. -/
def lexLe : List Char → List Char → Bool
  | [], _ => true
  | _ :: _, [] => false
  | a :: as, b :: bs =>
    if a < b then true
    else if a = b then lexLe as bs
    else false

theorem lexLe_cons_iff (a b : Char) (as bs : List Char) :
    lexLe (a :: as) (b :: bs) = true ↔
      a < b ∨ (a = b ∧ lexLe as bs = true) := by
  by_cases h1 : a < b <;> by_cases h2 : a = b <;> simp [lexLe, h1, h2]

theorem lexLe_total : ∀ as bs : List Char,
    lexLe as bs = true ∨ lexLe bs as = true
  | [], _ => Or.inl rfl
  | _ :: _, [] => Or.inr rfl
  | a :: as, b :: bs => by
    rcases lt_trichotomy a b with h | h | h
    · exact Or.inl ((lexLe_cons_iff a b as bs).mpr (Or.inl h))
    · subst h
      rcases lexLe_total as bs with h' | h'
      · exact Or.inl ((lexLe_cons_iff a a as bs).mpr (Or.inr ⟨rfl, h'⟩))
      · exact Or.inr ((lexLe_cons_iff a a bs as).mpr (Or.inr ⟨rfl, h'⟩))
    · exact Or.inr ((lexLe_cons_iff b a bs as).mpr (Or.inl h))

theorem lexLe_trans : ∀ as bs cs : List Char,
    lexLe as bs = true → lexLe bs cs = true → lexLe as cs = true
  | [], _, _ => fun _ _ => rfl
  | _ :: _, [], _ => fun h _ => by simp [lexLe] at h
  | _ :: _, _ :: _, [] => fun _ h => by simp [lexLe] at h
  | a :: as, b :: bs, c :: cs => fun h1 h2 => by
    rw [lexLe_cons_iff] at h1 h2 ⊢
    rcases h1 with h1 | ⟨rfl, h1⟩
    · rcases h2 with h2 | ⟨rfl, _⟩
      · exact Or.inl (lt_trans h1 h2)
      · exact Or.inl h1
    · rcases h2 with h2 | ⟨rfl, h2⟩
      · exact Or.inl h2
      · exact Or.inr ⟨rfl, lexLe_trans as bs cs h1 h2⟩

/-- `t.label.lower()` as a code-point sequence (labels are ASCII, where
`Char.toLower` agrees with Python's `str.lower`). -/
def lowerKey (s : String) : List Char := s.data.map Char.toLower

/-- The sort order `self.tabs.sort(key=lambda t: (t.order, t.label.lower()))`
uses (dashboards/base.py, line 46): ascending in `order`, ties broken by the
lowercased label compared lexicographically. -/
def tabLE (a b : AdminTab) : Prop :=
  a.order < b.order ∨
    (a.order = b.order ∧ lexLe (lowerKey a.label) (lowerKey b.label) = true)

instance : DecidableRel tabLE := fun a b =>
  inferInstanceAs (Decidable (a.order < b.order ∨
    (a.order = b.order ∧ lexLe (lowerKey a.label) (lowerKey b.label) = true)))

instance : IsTotal AdminTab tabLE where
  total a b := by
    rcases lt_trichotomy a.order b.order with h | h | h
    · exact Or.inl (Or.inl h)
    · rcases lexLe_total (lowerKey a.label) (lowerKey b.label) with hl | hl
      · exact Or.inl (Or.inr ⟨h, hl⟩)
      · exact Or.inr (Or.inr ⟨h.symm, hl⟩)
    · exact Or.inr (Or.inl h)

instance : IsTrans AdminTab tabLE where
  trans a b c hab hbc := by
    rcases hab with hab | ⟨hab, hab'⟩
    · rcases hbc with hbc | ⟨hbc, _⟩
      · exact Or.inl (hab.trans hbc)
      · exact Or.inl (hbc ▸ hab)
    · rcases hbc with hbc | ⟨hbc, hbc'⟩
      · exact Or.inl (hab ▸ hbc)
      · exact Or.inr ⟨hab.trans hbc, lexLe_trans _ _ _ hab' hbc'⟩

/-- The failure conditions `DashboardRegistry` raises:
`ValueError` on a duplicate slug (line 44), `RuntimeError` when a provider
exists but no plugin context is attached (line 72), `TypeError` when a
provider returns a non-mapping (line 77), and HTTP 404 for an unknown slug
(line 102). -/
inductive DashError where
  | duplicateSlug (slug : String) : DashError
  | missingPluginContext : DashError
  | providerNotMapping : DashError
  | notFound : DashError
deriving DecidableEq, Repr

/-- `DashboardRegistry.register_tab` (dashboards/base.py, lines 42-46):
raise on a duplicate slug, otherwise append and re-sort the full list by
`(order, label.lower())`.  Python `list.sort` is a stable sort by that key;
`List.insertionSort` is stable with the same input/output behaviour. -/
def register_tab (reg : DashboardRegistry) (tab : AdminTab) :
    Except DashError DashboardRegistry :=
  if reg.tabs.any (fun existing => existing.slug == tab.slug) then
    .error (.duplicateSlug tab.slug)
  else
    .ok { reg with tabs := List.insertionSort tabLE (reg.tabs ++ [tab]) }

/-- The caller-visible effect of one `register_tab` call on the registry
object: the method raises before touching `self.tabs` on the duplicate path,
so a failed call leaves the registry exactly as it was. -/
def register_tab_state (reg : DashboardRegistry) (tab : AdminTab) :
    DashboardRegistry × Option DashError :=
  match register_tab reg tab with
  | .ok reg' => (reg', none)
  | .error e => (reg, some e)

/-- What a successful render produces, abstracting
`self.templates.TemplateResponse(template, context)`: the template
reference, the provider-supplied part of the context, and the `active_tab`
slug / `tabs` entries merged in at dashboards/base.py lines 94-100 (the
index shell has no active tab). -/
structure Rendered where
  template : String
  provider_ctx : TemplateCtx
  active_slug : Option String
  tab_slugs : List String
deriving DecidableEq, Repr

/-- `DashboardRegistry._resolve_context` (dashboards/base.py, lines 66-78),
in source order: a tab without a provider yields `{}`; with a provider but
no attached plugin context, a `RuntimeError` is raised before the provider
is invoked; otherwise the provider runs and its result must be a mapping. -/
def resolveContext (reg : DashboardRegistry) (tab : AdminTab) (req : Request) :
    Except DashError TemplateCtx :=
  match tab.context_provider with
  | none => .ok []
  | some provider =>
    match reg.context with
    | none => .error .missingPluginContext
    | some plugin_context =>
      match provider req plugin_context with
      | .dict m => .ok m
      | .notDict => .error .providerNotMapping

/-- `DashboardRegistry.render_tab` (dashboards/base.py, lines 90-102): scan
`self.tabs` for the first tab with the requested slug (404 when none),
resolve its context, merge in `request` / `tabs` / `active_tab`, and render
the tab's template. -/
def render_tab (reg : DashboardRegistry) (slug : String) (req : Request) :
    Except DashError Rendered :=
  match reg.tabs.find? (fun t => t.slug == slug) with
  | some tab =>
    (resolveContext reg tab req).map fun c =>
      ⟨tab.template, c, some tab.slug, reg.tabs.map AdminTab.slug⟩
  | none => .error .notFound

/-- `DashboardRegistry.render_index` (dashboards/base.py, lines 80-88): with
at least one tab, delegate to `render_tab` on the first tab in the (sorted)
list; otherwise render the empty `admin/index.html` shell. -/
def render_index (reg : DashboardRegistry) (req : Request) :
    Except DashError Rendered :=
  match reg.tabs with
  | [] => .ok ⟨"admin/index.html", [], none, []⟩
  | first_tab :: _ => render_tab reg first_tab.slug req

end Dashboards

namespace Events

/-- Folding `subscribe` over a list of calls appends them to the table. -/
theorem subscribeAll_eq_append (tbl : SubTable) (cs : List (String × Handler)) :
    subscribeAll tbl cs = tbl ++ cs := by
  induction cs generalizing tbl with
  | nil => simp [subscribeAll]
  | cons c rest ih =>
    have hstep : subscribeAll tbl (c :: rest) = subscribeAll (tbl ++ [c]) rest := rfl
    rw [hstep, ih]
    simp

/-- The invocation trace of the dispatch loop is exactly the snapshot list,
one invocation per handler, in order, all with the dispatched payload. -/
theorem runHandlers_trace (tbl : SubTable) (et : String) (p : Payload)
    (hs : List Handler) :
    (runHandlers tbl et p hs).2 = hs.map (fun h => (h.id, et, p)) := by
  induction hs generalizing tbl with
  | nil => rfl
  | cons h rest ih => simp [runHandlers, ih]

/-- The table after the dispatch loop: the starting table followed by every
subscribe call the snapshot handlers performed, in invocation order. -/
theorem runHandlers_table (tbl : SubTable) (et : String) (p : Payload)
    (hs : List Handler) :
    (runHandlers tbl et p hs).1 = tbl ++ (hs.map Handler.calls).flatten := by
  induction hs generalizing tbl with
  | nil => simp [runHandlers]
  | cons h rest ih => simp [runHandlers, subscribeAll_eq_append, ih]

/-- A pair subscribed for an event type puts its handler in that type's
subscriber list. -/
theorem mem_subsFor {tbl : SubTable} {et : String} {g : Handler}
    (h : (et, g) ∈ tbl) : g ∈ subsFor tbl et := by
  unfold subsFor
  exact List.mem_map_of_mem _ (List.mem_filter.mpr ⟨h, by simp⟩)

end Events

/-! ## Claims about `EventRouter` -/

/-- C6 (confirmed): after any sequence of `subscribe` calls on a fresh
router, one `dispatch` invokes exactly the handlers subscribed for the
dispatched event type, each exactly once with the dispatched payload, in
subscription order; the dispatch loop awaits each handler to completion
(applying its effects to the table) before invoking the next. -/
theorem dispatch_subscription_order (subs : List (String × Events.Handler))
    (et : String) (p : Events.Payload) :
    (Events.dispatch (Events.subscribeAll [] subs) et p).2 =
      (subs.filter (fun s => s.1 == et)).map (fun s => (s.2.id, et, p)) := by
  rw [Events.subscribeAll_eq_append]
  have htr := Events.runHandlers_trace ([] ++ subs) et p
    (Events.subsFor ([] ++ subs) et)
  rw [show (Events.dispatch ([] ++ subs) et p).2 =
      (Events.runHandlers ([] ++ subs) et p (Events.subsFor ([] ++ subs) et)).2
    from rfl, htr]
  simp [Events.subsFor, List.map_map, Function.comp]

/-- C9 (confirmed): `dispatch` operates on a snapshot of the subscriber
list: the invoked trace is exactly the snapshot taken at the start of the
call (so a listener subscribed by a running handler is not invoked in the
current round), and a listener a snapshot handler subscribes for the same
event type is present in that type's subscriber list after the call, so a
later `dispatch` sees it. -/
theorem dispatch_snapshot (tbl : Events.SubTable) (et : String)
    (p : Events.Payload) :
    (Events.dispatch tbl et p).2 =
      (Events.subsFor tbl et).map (fun h => (h.id, et, p)) ∧
    ∀ h g, h ∈ Events.subsFor tbl et → (et, g) ∈ h.calls →
      g ∈ Events.subsFor (Events.dispatch tbl et p).1 et := by
  constructor
  · exact Events.runHandlers_trace tbl et p (Events.subsFor tbl et)
  · intro h g hh hg
    apply Events.mem_subsFor
    rw [show (Events.dispatch tbl et p).1 =
        (Events.runHandlers tbl et p (Events.subsFor tbl et)).1 from rfl,
      Events.runHandlers_table]
    refine List.mem_append.mpr (Or.inr ?_)
    rw [List.mem_flatten]
    exact ⟨h.calls, List.mem_map_of_mem _ hh, hg⟩

/-- Witness for `dispatch_snapshot`: handler 1 subscribes handler 2 for the
same event type during its invocation; the trace of the round is exactly
handler 1's invocation, and handler 2 is subscribed afterwards. -/
theorem dispatch_snapshot_witness :
    ((Events.dispatch [("e", .mk 1 [("e", .mk 2 [])])] "e" []).2 =
      (Events.subsFor [("e", .mk 1 [("e", .mk 2 [])])] "e").map
        (fun h => (h.id, "e", ([] : Events.Payload)))) ∧
    Events.Handler.mk 2 [] ∈
      Events.subsFor (Events.dispatch [("e", .mk 1 [("e", .mk 2 [])])] "e" []).1 "e" :=
  ⟨(dispatch_snapshot [("e", .mk 1 [("e", .mk 2 [])])] "e" []).1,
   (dispatch_snapshot [("e", .mk 1 [("e", .mk 2 [])])] "e" []).2
     (.mk 1 [("e", .mk 2 [])]) (.mk 2 [])
     (show Events.Handler.mk 1 [("e", .mk 2 [])] ∈ [Events.Handler.mk 1 [("e", .mk 2 [])]]
        from List.mem_singleton.mpr rfl)
     (show ("e", Events.Handler.mk 2 []) ∈ [("e", Events.Handler.mk 2 [])]
        from List.mem_singleton.mpr rfl)⟩

/-! ## Claims about `PluginManager.startup` / `PluginManager.shutdown` -/

/-- C1 (counterexample): the claim says a fault thrown by plugin A's
`on_startup` is isolated and plugin B's `on_startup` is still invoked.  On
the code, with A listed before B and A's hook throwing, `startup` invokes
only A's hook — B's key is absent from the invoked list — and the exception
propagates out of `startup`. -/
theorem startup_fault_counterexample :
    Core.startup [⟨"a", .throws "boom", .ok⟩, ⟨"b", .ok, .ok⟩] =
      (["a"], some "boom") ∧
    "b" ∉ (Core.startup [⟨"a", .throws "boom", .ok⟩, ⟨"b", .ok, .ok⟩]).1 := by
  decide

/-- C1 (amended): a fault thrown by an earlier plugin's `on_startup` is NOT
isolated: `PluginManager.startup` invokes the hooks of the plugins before
the faulting one in list order, invokes the faulting plugin's hook, and then
the exception propagates out of `startup`, so no subsequent plugin's
`on_startup` is invoked. -/
theorem startup_fault_propagates (pre : List Core.LifecyclePlugin)
    (p : Core.LifecyclePlugin) (post : List Core.LifecyclePlugin) (msg : String)
    (hpre : ∀ q ∈ pre, q.on_startup = .ok) (hp : p.on_startup = .throws msg) :
    Core.startup (pre ++ p :: post) =
      (pre.map Core.LifecyclePlugin.key ++ [p.key], some msg) := by
  induction pre with
  | nil => simp [Core.startup, hp]
  | cons q rest ih =>
    have hq : q.on_startup = .ok := hpre q (List.mem_cons_self _ _)
    have ih' := ih fun r hr => hpre r (List.mem_cons_of_mem _ hr)
    simp [Core.startup, hq, ih']

/-- Witness for `startup_fault_propagates` at a concrete plugin list. -/
theorem startup_fault_propagates_witness :
    Core.startup [⟨"first", .ok, .ok⟩, ⟨"bad", .throws "x", .ok⟩,
        ⟨"after", .ok, .ok⟩] =
      (["first", "bad"], some "x") :=
  startup_fault_propagates [⟨"first", .ok, .ok⟩] ⟨"bad", .throws "x", .ok⟩
    [⟨"after", .ok, .ok⟩] "x" (by decide) rfl

/-- C4 (counterexample): the claim says `shutdown` is best-effort — a fault
from one plugin's `on_shutdown` is logged and the remaining plugins'
`on_shutdown` hooks are still attempted.  On the code, with A listed before
B and A's `on_shutdown` throwing, only A's hook is invoked, B's is not, and
the exception propagates out of `shutdown`. -/
theorem shutdown_fault_counterexample :
    Core.shutdown [⟨"a", .ok, .throws "boom"⟩, ⟨"b", .ok, .ok⟩] =
      (["a"], some "boom") ∧
    "b" ∉ (Core.shutdown [⟨"a", .ok, .throws "boom"⟩, ⟨"b", .ok, .ok⟩]).1 := by
  decide

/-- C4 (amended): `PluginManager.shutdown` awaits each plugin's
`on_shutdown` in list order, but is not best-effort: a fault thrown by one
plugin's `on_shutdown` propagates out of `shutdown` and the remaining
plugins' hooks are not attempted; the hooks of the plugins preceding the
faulting one are awaited in order. -/
theorem shutdown_fault_propagates (pre : List Core.LifecyclePlugin)
    (p : Core.LifecyclePlugin) (post : List Core.LifecyclePlugin) (msg : String)
    (hpre : ∀ q ∈ pre, q.on_shutdown = .ok) (hp : p.on_shutdown = .throws msg) :
    Core.shutdown (pre ++ p :: post) =
      (pre.map Core.LifecyclePlugin.key ++ [p.key], some msg) := by
  induction pre with
  | nil => simp [Core.shutdown, hp]
  | cons q rest ih =>
    have hq : q.on_shutdown = .ok := hpre q (List.mem_cons_self _ _)
    have ih' := ih fun r hr => hpre r (List.mem_cons_of_mem _ hr)
    simp [Core.shutdown, hq, ih']

/-- Witness for `shutdown_fault_propagates` at a concrete plugin list. -/
theorem shutdown_fault_propagates_witness :
    Core.shutdown [⟨"first", .ok, .ok⟩, ⟨"bad", .ok, .throws "x"⟩,
        ⟨"after", .ok, .ok⟩] =
      (["first", "bad"], some "x") :=
  shutdown_fault_propagates [⟨"first", .ok, .ok⟩] ⟨"bad", .ok, .throws "x"⟩
    [⟨"after", .ok, .ok⟩] "x" (by decide) rfl

/-! ## Claims about `PluginManager.discover` -/

/-- C2 (counterexample): the claim says a candidate whose module fails to
load *for any reason* is skipped with a warning and the failure never
propagates out of `discover`.  On the code only `ModuleNotFoundError` is
caught: a module that is found but raises during import makes `discover`
itself fail. -/
theorem discover_importError_counterexample :
    Core.discover "plugins" true [] [⟨"broken", true, .importError "boom"⟩] =
      .error "boom" := rfl

/-- C2 (amended): only the module-not-found failure is recoverable.  If a
candidate's plugin-definition module is not found, `discover` logs a warning,
skips the candidate and continues with the rest; if the module is found but
fails to load with any other exception, that failure propagates out of
`discover`. -/
theorem discover_load_failure_policy :
    (∀ (package : String) (enabled_set : List String) (st : Core.DiscoverState)
        (c : Core.Candidate) (msg : String) (rest : List Core.Candidate),
        c.is_pkg = true → Core.underscored c.name = false →
        c.load = .notFound msg →
        Core.discoverList package enabled_set st (c :: rest) =
          Core.discoverList package enabled_set
            ⟨st.plugins,
             st.logs ++ [⟨.warning, "Skipping plugin " ++
               (package ++ "." ++ c.name ++ ".plugin") ++ ": " ++ msg⟩]⟩ rest) ∧
    (∀ (package : String) (enabled_set : List String) (st : Core.DiscoverState)
        (c : Core.Candidate) (msg : String) (rest : List Core.Candidate),
        c.is_pkg = true → Core.underscored c.name = false →
        c.load = .importError msg →
        Core.discoverList package enabled_set st (c :: rest) = .error msg) := by
  constructor
  · intro package enabled_set st c msg rest h1 h2 h3
    simp [Core.discoverList, Core.processCandidate, h1, h2, h3]
  · intro package enabled_set st c msg rest h1 h2 h3
    simp [Core.discoverList, Core.processCandidate, h1, h2, h3]

/-- Witness for `discover_load_failure_policy` at concrete candidates. -/
theorem discover_load_failure_policy_witness :
    (Core.discoverList "plugins" [] ⟨[], []⟩ [⟨"missing", true, .notFound "nope"⟩] =
      Core.discoverList "plugins" []
        ⟨[], [⟨.warning, "Skipping plugin " ++
          ("plugins" ++ "." ++ "missing" ++ ".plugin") ++ ": " ++ "nope"⟩]⟩ []) ∧
    Core.discoverList "plugins" [] ⟨[], []⟩ [⟨"broken", true, .importError "boom"⟩] =
      .error "boom" :=
  ⟨discover_load_failure_policy.1 "plugins" [] ⟨[], []⟩
      ⟨"missing", true, .notFound "nope"⟩ "nope" [] rfl rfl rfl,
   discover_load_failure_policy.2 "plugins" [] ⟨[], []⟩
      ⟨"broken", true, .importError "boom"⟩ "boom" [] rfl rfl rfl⟩

/-- C3 (counterexample): the claim says key uniqueness is enforced at load
time — on a key collision the first-loaded plugin is kept, the duplicate is
not appended and a warning is logged.  On the code, two candidates whose
plugins share the key `dup` are both appended and only info records are
logged. -/
theorem discover_duplicate_key_counterexample :
    (Core.discover "plugins" true []
        [⟨"one", true, .loaded (some ⟨"dup", "One", true⟩)⟩,
         ⟨"two", true, .loaded (some ⟨"dup", "Two", true⟩)⟩]).map
      (fun st => (st.plugins.map Core.BasePlugin.key,
                  st.logs.map Core.LogEntry.level)) =
      .ok (["dup", "dup"], [.info, .info]) := rfl

/-- C3 (amended): `discover` performs no key-uniqueness check.  A later
candidate that passes the enable policy is appended to the accepted list
even when its key equals the key of an already-accepted plugin; no warning
is logged for the duplicate. -/
theorem discover_no_key_uniqueness (package : String) (st : Core.DiscoverState)
    (c : Core.Candidate) (plugin : Core.BasePlugin) (rest : List Core.Candidate)
    (h1 : c.is_pkg = true) (h2 : Core.underscored c.name = false)
    (h3 : c.load = .loaded (some plugin)) (h4 : plugin.enabled_by_default = true)
    (_hdup : ∃ q ∈ st.plugins, q.key = plugin.key) :
    Core.discoverList package [] st (c :: rest) =
      Core.discoverList package []
        ⟨st.plugins ++ [plugin],
         st.logs ++ [⟨.info, "Loaded plugin " ++ plugin.key ++
           " (" ++ plugin.name ++ ")"⟩]⟩ rest := by
  simp [Core.discoverList, Core.processCandidate, h1, h2, h3, h4]

/-- Witness for `discover_no_key_uniqueness`: a second plugin keyed `dup` is
appended next to the first. -/
theorem discover_no_key_uniqueness_witness :
    Core.discoverList "plugins" [] ⟨[⟨"dup", "One", true⟩], []⟩
        [⟨"two", true, .loaded (some ⟨"dup", "Two", true⟩)⟩] =
      Core.discoverList "plugins" []
        ⟨[⟨"dup", "One", true⟩] ++ [⟨"dup", "Two", true⟩],
         [] ++ [⟨.info, "Loaded plugin " ++ "dup" ++ " (" ++ "Two" ++ ")"⟩]⟩ [] :=
  discover_no_key_uniqueness "plugins" ⟨[⟨"dup", "One", true⟩], []⟩
    ⟨"two", true, .loaded (some ⟨"dup", "Two", true⟩)⟩ ⟨"dup", "Two", true⟩ []
    rfl rfl rfl rfl ⟨⟨"dup", "One", true⟩, by decide, rfl⟩

/-- C5 (confirmed): for a conforming candidate, acceptance follows the
enable policy exactly — with a non-empty allow-list the plugin is accepted
iff its key is in the allow-list (`enabled_by_default` ignored); with an
empty allow-list it is accepted iff `enabled_by_default` is true.  And the
three-plugin scenario (keys `a`, `b`, `c`, defaults true/false/true, empty
allow-list) yields exactly `[a, c]` in that order. -/
theorem discover_enable_policy :
    (∀ (package : String) (enabled_set : List String) (st : Core.DiscoverState)
        (c : Core.Candidate) (plugin : Core.BasePlugin),
        c.is_pkg = true → Core.underscored c.name = false →
        c.load = .loaded (some plugin) →
        (Core.processCandidate package enabled_set st c).map
            Core.DiscoverState.plugins =
          .ok (if (!enabled_set.isEmpty && enabled_set.contains plugin.key) ||
                  (enabled_set.isEmpty && plugin.enabled_by_default)
               then st.plugins ++ [plugin] else st.plugins)) ∧
    (Core.discover "plugins" true []
        [⟨"a", true, .loaded (some ⟨"a", "A", true⟩)⟩,
         ⟨"b", true, .loaded (some ⟨"b", "B", false⟩)⟩,
         ⟨"c", true, .loaded (some ⟨"c", "C", true⟩)⟩]).map
      (fun st => st.plugins.map Core.BasePlugin.key) = .ok ["a", "c"] := by
  constructor
  · intro package enabled_set st c plugin h1 h2 h3
    by_cases hm : plugin.key ∈ enabled_set <;>
      cases he : enabled_set.isEmpty <;>
      cases hd : plugin.enabled_by_default <;>
      simp [Core.processCandidate, h1, h2, h3, hm, he, hd, Except.map]
  · rfl

/-- Witness for `discover_enable_policy`: with allow-list `[x]`, a plugin
keyed `x` with `enabled_by_default = false` is still accepted. -/
theorem discover_enable_policy_witness :
    (Core.processCandidate "plugins" ["x"] ⟨[], []⟩
        ⟨"m", true, .loaded (some ⟨"x", "X", false⟩)⟩).map
      Core.DiscoverState.plugins = .ok [⟨"x", "X", false⟩] :=
  discover_enable_policy.1 "plugins" ["x"] ⟨[], []⟩
    ⟨"m", true, .loaded (some ⟨"x", "X", false⟩)⟩ ⟨"x", "X", false⟩ rfl rfl rfl

/-! ## Claims about `DashboardRegistry` -/

/-- C7 (confirmed): `register_tab` with a slug already present fails with
the duplicate-slug error and leaves the registry unchanged — the raise
happens before `self.tabs` is touched, so the first tab with that slug, the
tab count and the ordering are all as before the call. -/
theorem register_tab_duplicate (reg : Dashboards.DashboardRegistry)
    (tab : Dashboards.AdminTab)
    (hdup : ∃ e ∈ reg.tabs, e.slug = tab.slug) :
    Dashboards.register_tab_state reg tab =
      (reg, some (.duplicateSlug tab.slug)) := by
  obtain ⟨e, he, hslug⟩ := hdup
  have hany : reg.tabs.any (fun existing => existing.slug == tab.slug) = true :=
    List.any_eq_true.mpr ⟨e, he, by simp [hslug]⟩
  simp [Dashboards.register_tab_state, Dashboards.register_tab, hany]

/-- Witness for `register_tab_duplicate`: re-registering slug `x` fails and
keeps the one-tab registry intact. -/
theorem register_tab_duplicate_witness :
    Dashboards.register_tab_state
        ⟨[{ slug := "x", label := "First", template := "first.html" }], none⟩
        { slug := "x", label := "Second", template := "second.html" } =
      (⟨[{ slug := "x", label := "First", template := "first.html" }], none⟩,
       some (.duplicateSlug "x")) :=
  register_tab_duplicate
    ⟨[{ slug := "x", label := "First", template := "first.html" }], none⟩
    { slug := "x", label := "Second", template := "second.html" }
    ⟨{ slug := "x", label := "First", template := "first.html" },
     List.mem_singleton.mpr rfl, rfl⟩

/-- The tab `(slug="x", order=20, label="Zeta")` of the C8 scenario. -/
def tabX : Dashboards.AdminTab :=
  { slug := "x", label := "Zeta", template := "x.html", order := 20 }

/-- The tab `(slug="y", order=20, label="Alpha")` of the C8 scenario. -/
def tabY : Dashboards.AdminTab :=
  { slug := "y", label := "Alpha", template := "y.html", order := 20 }

/-- Registering `tabX` then `tabY` on an empty registry. -/
def regXY : Except Dashboards.DashError Dashboards.DashboardRegistry :=
  (Dashboards.register_tab ⟨[], none⟩ tabX).bind fun r =>
    Dashboards.register_tab r tabY

/-- C8 (confirmed): every successful `register_tab` call leaves the tab list
sorted by `(order, lowercased label)`; and in the scenario — `x`
(order 20, label `Zeta`) registered before `y` (order 20, label `Alpha`) —
the sorted order is `[y, x]` and `render_index` renders `y`. -/
theorem register_tab_sorted :
    (∀ (reg reg' : Dashboards.DashboardRegistry) (tab : Dashboards.AdminTab),
        Dashboards.register_tab reg tab = .ok reg' →
        reg'.tabs.Sorted Dashboards.tabLE) ∧
    regXY.map (fun r => r.tabs.map Dashboards.AdminTab.slug) = .ok ["y", "x"] ∧
    regXY.bind (fun r => Dashboards.render_index r 0) =
      .ok ⟨"y.html", [], some "y", ["y", "x"]⟩ := by
  refine ⟨?_, rfl, rfl⟩
  intro reg reg' tab h
  unfold Dashboards.register_tab at h
  split at h
  · exact absurd h (by simp)
  · injection h with h'
    exact h' ▸ List.sorted_insertionSort Dashboards.tabLE (reg.tabs ++ [tab])

/-- Witness for `register_tab_sorted`: the registry after one successful
registration is sorted. -/
theorem register_tab_sorted_witness :
    ([tabX] : List Dashboards.AdminTab).Sorted Dashboards.tabLE :=
  register_tab_sorted.1 ⟨[], none⟩ ⟨[tabX], none⟩ tabX rfl

/-- C10 (confirmed): on a registry with no attached plugin context,
`render_tab` of a registered slug whose tab has a context provider fails
with the missing-plugin-context runtime error — whatever the provider is, so
the failure happens before the provider is invoked; if the tab has no
provider, `render_tab` succeeds with an empty provider context. -/
theorem render_tab_missing_context (tabs : List Dashboards.AdminTab)
    (slug : String) (tab : Dashboards.AdminTab) (req : Dashboards.Request)
    (hfind : tabs.find? (fun t => t.slug == slug) = some tab) :
    (∀ provider, tab.context_provider = some provider →
        Dashboards.render_tab ⟨tabs, none⟩ slug req =
          .error .missingPluginContext) ∧
    (tab.context_provider = none →
        Dashboards.render_tab ⟨tabs, none⟩ slug req =
          .ok ⟨tab.template, [], some tab.slug,
               tabs.map Dashboards.AdminTab.slug⟩) := by
  constructor
  · intro provider hp
    simp [Dashboards.render_tab, hfind, Dashboards.resolveContext, hp,
      Except.map]
  · intro hp
    simp [Dashboards.render_tab, hfind, Dashboards.resolveContext, hp,
      Except.map]

/-- A tab with a context provider, for the C10 witness. -/
def tabP : Dashboards.AdminTab :=
  { slug := "p", label := "P", template := "p.html",
    context_provider := some fun _ _ => .notDict }

/-- A tab without a context provider, for the C10 witness. -/
def tabN : Dashboards.AdminTab :=
  { slug := "n", label := "N", template := "n.html" }

/-- Witness for `render_tab_missing_context`: with no context attached, the
provider-bearing tab `p` fails with the missing-context error (not the
provider's own type error), while the provider-less tab `n` renders. -/
theorem render_tab_missing_context_witness :
    Dashboards.render_tab ⟨[tabP, tabN], none⟩ "p" 0 =
      .error .missingPluginContext ∧
    Dashboards.render_tab ⟨[tabP, tabN], none⟩ "n" 0 =
      .ok ⟨"n.html", [], some "n", ["p", "n"]⟩ :=
  ⟨(render_tab_missing_context [tabP, tabN] "p" tabP 0 rfl).1
      (fun _ _ => .notDict) rfl,
   (render_tab_missing_context [tabP, tabN] "n" tabN 0 rfl).2 rfl⟩
